import Mathlib

/-!
Verification of the hutkop loan-record pipeline (`app.py`, `custom_parser.py`).

The pipeline's pure core is embedded shallowly:

* Python scalar values that can sit in a record cell are the inductive `Value`
  (`none`, text, bytes, int, float, timestamp).  Python floats are modelled as
  exact rationals (`PyFloat`, an integer numerator over a positive natural
  denominator, not kept in lowest terms so that every arithmetic step is plain
  integer arithmetic); float repr/parse round-trips are taken as exact.
* A raw record (Python dict) is an association list of field name to `Value`
  with the keys distinct by construction of the dict; lookups take the first
  binding.
* String helpers (`strip`, `lower`, `upper`, `title`, substring search) are
  implemented over `List Char` by structural recursion so that every concrete
  input evaluates inside the kernel.  Python's Unicode-aware case folding and
  whitespace classes are modelled on their ASCII (plus NBSP) fragment, which
  covers all field names, tokens and labels occurring in the program.
* Python's `float(...)` literal syntax is modelled by its decimal fragment
  (sign, digits, one optional decimal point); exponent forms, `inf`/`nan`
  and underscore separators are outside the model.
-/

/-- An exact rational standing in for a Python float: numerator over a
positive denominator, not necessarily in lowest terms.  Every construction in
this file keeps `den` positive.  Arithmetic is exact; Python's numeric
equality test against zero is `num = 0`, which is representation-independent. -/
structure PyFloat where
  num : Int
  den : Nat
deriving DecidableEq, Repr

instance : Zero PyFloat := ⟨⟨0, 1⟩⟩

instance : Add PyFloat := ⟨fun a b => ⟨a.num * b.den + b.num * a.den, a.den * b.den⟩⟩

instance : Mul PyFloat := ⟨fun a b => ⟨a.num * b.num, a.den * b.den⟩⟩

/-- Embed an integer as a float (Python's implicit int-to-float widening). -/
def intToFloat (i : Int) : PyFloat := ⟨i, 1⟩

/-- A scalar value as it can appear in one raw record cell: Python's `None`,
a text value, a bytes value, an integer, a float (modelled as an exact
rational) or a `datetime`/`pandas.Timestamp` (its date payload is opaque here;
only nullness (`NaT`) is observable, which is all `normalize_row` inspects). -/
inductive Value where
  | none
  | str (s : String)
  | bytes (b : List Nat)
  | int (i : Int)
  | float (q : PyFloat)
  | timestamp (isNull : Bool)
deriving DecidableEq, Repr

/-- A raw record: field name to value, first binding wins (a Python dict). -/
abbrev RawRecord := List (String × Value)

/-! ### ASCII string helpers (kernel-computable models of Python's str ops) -/

/-- Lower-case an ASCII letter (fragment of Python `str.lower`). -/
def asciiLower (c : Char) : Char :=
  if 'A' ≤ c ∧ c ≤ 'Z' then Char.ofNat (c.toNat + 32) else c

/-- Upper-case an ASCII letter (fragment of Python `str.upper`). -/
def asciiUpper (c : Char) : Char :=
  if 'a' ≤ c ∧ c ≤ 'z' then Char.ofNat (c.toNat - 32) else c

/-- `str.lower` on the ASCII fragment. -/
def lowerStr (s : String) : String := ⟨s.data.map asciiLower⟩

/-- `str.upper` on the ASCII fragment. -/
def upperStr (s : String) : String := ⟨s.data.map asciiUpper⟩

/-- Characters removed by Python `str.strip()` (ASCII whitespace plus NBSP). -/
def isPyWs (c : Char) : Bool :=
  c = ' ' ∨ c = '\t' ∨ c = '\n' ∨ c = '\r' ∨ c.toNat = 11 ∨ c.toNat = 12 ∨ c.toNat = 160

/-- Python `str.strip()`: drop whitespace from both ends. -/
def pyStrip (s : String) : String :=
  ⟨((s.data.dropWhile isPyWs).reverse.dropWhile isPyWs).reverse⟩

/-- `pat` occurs as a contiguous run inside `xs` (Python's `pat in s`). -/
def containsChars (xs pat : List Char) : Bool :=
  match xs with
  | [] => pat.isEmpty
  | _ :: t => pat.isPrefixOf xs || containsChars t pat

/-- Python's `pat in s` substring test. -/
def containsStr (s pat : String) : Bool := containsChars s.data pat.data

/-- Python's `s.startswith(pre)`. -/
def strStartsWith (s pre : String) : Bool := pre.data.isPrefixOf s.data

/-- Python's `s.endswith(suf)`. -/
def strEndsWith (s suf : String) : Bool := suf.data.isSuffixOf s.data

/-- One step of Python `str.title` on ASCII: upper-case a letter that follows a
non-letter, lower-case a letter that follows a letter; the boolean carries
whether the previous character was a letter. -/
def titleChars : List Char → Bool → List Char
  | [], _ => []
  | c :: t, prevAlpha =>
    (if c.isAlpha then (if prevAlpha then asciiLower c else asciiUpper c) else c)
      :: titleChars t c.isAlpha

/-- Python `str.title` on the ASCII fragment. -/
def titleStr (s : String) : String := ⟨titleChars s.data false⟩

/-- Python's non-overlapping left-to-right `s.replace("--","-")`. -/
def collapseDoubleDash : List Char → List Char
  | '-' :: '-' :: t => '-' :: collapseDoubleDash t
  | c :: t => c :: collapseDoubleDash t
  | [] => []

/-- Index of the last occurrence of `c` in `xs`, if any (Python `str.rfind`). -/
def lastIdx (xs : List Char) (c : Char) : Option Nat :=
  match xs with
  | [] => Option.none
  | x :: t =>
    match lastIdx t c with
    | some i => some (i + 1)
    | Option.none => if x = c then some 0 else Option.none

/-- `os.path.splitext(s)[0]`: cut at the last dot, provided it comes after the
last path separator and at least one non-dot character stands between them
(so purely-dotted leading names such as `".bashrc"` keep their dot). -/
def splitextBase (s : String) : String :=
  let cs := s.data
  let sepIdx : Int := match lastIdx cs '/' with | some i => (i : Int) | Option.none => -1
  match lastIdx cs '.' with
  | Option.none => s
  | some dotIdx =>
    if sepIdx < (dotIdx : Int) ∧
        (List.range dotIdx).any (fun j => decide (sepIdx < (j : Int)) && (cs.getD j '.' != '.')) then
      ⟨cs.take dotIdx⟩
    else s

/-! ### Python truthiness and the safe scalar converters -/

/-- Python truthiness of a cell value (`bool(v)`):  `None`, empty text, empty
bytes and numeric zero are falsy; everything else (including a timestamp) is
truthy. -/
def truthy (v : Value) : Bool :=
  match v with
  | .none => false
  | .str s => s ≠ ""
  | .bytes b => b ≠ []
  | .int i => i ≠ 0
  | .float q => q.num ≠ 0
  | .timestamp _ => true

/-- Python `x or y` on a possibly-absent cell value: keep `x` when it is
present and truthy, otherwise fall through to `y` (`dict.get` yields `None`
for an absent key, which is falsy). -/
def orDefault (v : Option Value) (w : Value) : Value :=
  match v with
  | some x => if truthy x then x else w
  | Option.none => w

/-- Value of a decimal digit list, most significant first. -/
def digitsToNat (ds : List Char) : Nat :=
  ds.foldl (fun a c => a * 10 + (c.toNat - 48)) 0

/-- The decimal fragment of Python's `float(s)` literal parser: optional sign,
then digits with at most one decimal point and at least one digit. -/
def parseFloat? (s : String) : Option PyFloat :=
  let cs := s.data
  let signed : Int × List Char :=
    match cs with
    | '-' :: t => (-1, t)
    | '+' :: t => (1, t)
    | t => (1, t)
  let intPart := signed.2.takeWhile Char.isDigit
  let rest := signed.2.dropWhile Char.isDigit
  match rest with
  | [] => if intPart.isEmpty then Option.none
          else some ⟨signed.1 * digitsToNat intPart, 1⟩
  | '.' :: frac =>
    if frac.all Char.isDigit ∧ ¬(intPart.isEmpty ∧ frac.isEmpty) then
      some ⟨signed.1 * (digitsToNat intPart * 10 ^ frac.length + digitsToNat frac), 10 ^ frac.length⟩
    else Option.none
  | _ => Option.none

/-- Truncation toward zero, Python's `int(float)`. -/
def truncFloat (q : PyFloat) : Int :=
  if 0 ≤ q.num then Int.ofNat (q.num.toNat / q.den)
  else - Int.ofNat ((-q.num).toNat / q.den)

/-- After `str(val).strip()`, remove every space, comma and NBSP
(the `.replace` chain of `_to_float_safe`). -/
def stripCleanFloat (s : String) : String :=
  ⟨(pyStrip s).data.filter (fun c => !(c = ' ' ∨ c = ',' ∨ c.toNat = 160))⟩

/-- `_to_float_safe(val, default)` from `app.py`, by case on the cell value.
`None` returns the default; for int/float values `float(str(v))` round-trips
to the numeric value itself; text is stripped, cleaned of grouping separators
and parsed; `str()` of bytes (`"b'..'"`) and of timestamps never parses as a
number, so those fall back to the default. -/
def _to_float_safe (v : Value) (default : PyFloat) : PyFloat :=
  match v with
  | .none => default
  | .int i => intToFloat i
  | .float q => q
  | .str s =>
    match parseFloat? (stripCleanFloat s) with
    | some q => q
    | Option.none => default
  | .bytes _ => default
  | .timestamp _ => default

/-- `_to_int_safe(val, default)` from `app.py`: `float(str(val).strip())`
truncated toward zero, with the default on any parse failure. -/
def _to_int_safe (v : Value) (default : Int) : Int :=
  match v with
  | .none => default
  | .int i => i
  | .float q => truncFloat q
  | .str s =>
    match parseFloat? (pyStrip s) with
    | some q => truncFloat q
    | Option.none => default
  | .bytes _ => default
  | .timestamp _ => default

/-- Python `str(v)` for the cell values reaching the text fields.  Text is
itself; ints print in decimal; floats and timestamps keep an abstract rendering
(their exact Python spelling is irrelevant downstream: it is non-empty and
never looks like a record key); bytes render with the `b'..'` wrapper. -/
def pyStr (v : Value) : String :=
  match v with
  | .none => "None"
  | .str s => s
  | .int i => toString i
  | .float q => toString q.num ++ "/" ++ toString q.den
  | .bytes b => "b'" ++ (⟨b.map Char.ofNat⟩ : String) ++ "'"
  | .timestamp _ => "timestamp"

/-! ### Loan-type classifier (`classify_loan_type` in `app.py`) -/

/-- The filename normalization at the top of `classify_loan_type`: strip the
extension, lower-case, turn underscores, spaces and dots into dashes, then
collapse `--` into `-` (one left-to-right pass, as Python's `replace`). -/
def normalize_filename (filename : String) : String :=
  let base := lowerStr (splitextBase filename)
  ⟨collapseDoubleDash (base.data.map (fun c => if c = '_' ∨ c = ' ' ∨ c = '.' then '-' else c))⟩

/-- `has_num` from `classify_loan_type`: the digit string `s` appears next to a
dash, at the end of the normalized name, or right after a motor abbreviation. -/
def has_num (safe : String) (s : String) : Bool :=
  containsStr safe ("-" ++ s) || containsStr safe (s ++ "-") || strEndsWith safe s ||
    containsStr safe ("mot" ++ s) || containsStr safe ("mtr" ++ s)

def elek_tokens : List String := ["elektronik", "elektron", "elek", "elec", "el", "elektronil", "elektron1"]

def motor_tokens : List String := ["motor", "mot", "mtr"]

def top_tokens : List String := ["topup", "top-up", "tpup", "tu", "tup", "top"]

def uang_tokens : List String := ["uang", "ua"]

def pinj_tokens : List String := ["pinjaman", "pinjam", "pinj", "pjm"]

def cash_tokens : List String := ["cash", "tunai", "kas", "csh"]

def dagang_tokens : List String := ["dagang", "dgg", "dgng", "hutkopdagang", "hutkop1dagang"]

/-- `any_in` from `classify_loan_type`: some token occurs in the name. -/
def any_in (toks : List String) (safe : String) : Bool :=
  toks.any (fun t => containsStr safe t)

def is_elek (safe : String) : Bool := any_in elek_tokens safe

def is_motor (safe : String) : Bool := any_in motor_tokens safe

def is_top (safe : String) : Bool := any_in top_tokens safe

def is_uang (safe : String) : Bool :=
  any_in uang_tokens safe || containsStr safe "topupuang" || containsStr safe "pinjuang"

def is_pinj (safe : String) : Bool := any_in pinj_tokens safe

def is_cash (safe : String) : Bool := any_in cash_tokens safe

def is_dagang (safe : String) : Bool := any_in dagang_tokens safe

/-- The ordered first-match rule chain of `classify_loan_type`, applied to the
already-normalized name. -/
def classify_core (safe : String) : String :=
  if is_dagang safe then "Hutkop Dagang"
  else if is_elek safe && is_top safe then "Elektronik Top Up"
  else if is_elek safe && is_uang safe then "Elektronik Uang"
  else if is_elek safe && (has_num safe "1" || containsStr safe "elek1" || containsStr safe "el1") then "Elektronik 1"
  else if is_motor safe && has_num safe "10" then "Motor 10"
  else if is_motor safe && has_num safe "8" then "Motor 8"
  else if is_motor safe && (has_num safe "1" || containsStr safe "mot1" || containsStr safe "mtr1") then "Motor 1"
  else if !is_elek safe && is_top safe && is_uang safe then "Top up uang"
  else if is_cash safe then "Pinjaman cash"
  else if !is_elek safe && is_pinj safe && is_uang safe then "Pinjaman uang"
  else "Lainnya"

/-- `classify_loan_type(filename)` from `app.py`. -/
def classify_loan_type (filename : String) : String :=
  classify_core (normalize_filename filename)

/-- The fixed label taxonomy of the classifier. -/
def loanTypeLabels : List String :=
  ["Hutkop Dagang", "Elektronik Top Up", "Elektronik Uang", "Elektronik 1",
   "Motor 10", "Motor 8", "Motor 1", "Top up uang", "Pinjaman cash",
   "Pinjaman uang", "Lainnya"]

/-! ### Division-name canonicalizer (`clean_division_name` in `app.py`) -/

/-- The alias table of `clean_division_name`, in source order. -/
def division_map : List (String × String) :=
  [("adm & k", "Adm & K"), ("adm & keu", "Adm & K"), ("adm & acct", "Adm & K"), ("f & a", "Adm & K"),
   ("moa", "MOA"), ("m o a", "MOA"),
   ("logistik", "Logistik"), ("logistic", "Logistik"),
   ("teknik", "Teknik"), ("tehnik", "Teknik"),
   ("busdev", "Bus-Dev"), ("bus-dev", "Bus-Dev"),
   ("gdg o. jad", "Gdg O. Jad"), ("g o j", "Gdg O. Jad"),
   ("pema-mutu", "Pem-Mutu"), ("pem-mutu", "Pem-Mutu"), ("pemasmutu", "Pem-Mutu"),
   ("pros-dev", "Pros-Dev"), ("prosdev", "Pros-Dev"),
   ("prod", "Produksi"), ("produksi", "Produksi"),
   ("gbb", "Gdg B. Bak"), ("gdg b. bak", "Gdg B. Bak")]

/-- First-binding lookup in a string association table (`dict.get`). -/
def lookupStr : List (String × String) → String → Option String
  | [], _ => Option.none
  | (k, v) :: t, key => if k = key then some v else lookupStr t key

/-- `clean_division_name`, generalized over the alias table: trim and
lower-case; names opening with `penj` are forced to `Marketing` before the
table is ever consulted; otherwise the table answers, with title-cased trimmed
text as the fallback. -/
def clean_division_name_with (table : List (String × String)) (name : String) : String :=
  let cleaned := lowerStr (pyStrip name)
  if strStartsWith cleaned "penj" then "Marketing"
  else
    match lookupStr table cleaned with
    | some v => v
    | Option.none => titleStr cleaned

/-- `clean_division_name(name)` from `app.py`. -/
def clean_division_name (name : String) : String :=
  clean_division_name_with division_map name

/-! ### Record normalizer (`normalize_row` in `app.py`) -/

/-- Membership of a cell value in Python's tuple `(None, "", b"", 0)`, tested
with `in`, hence with numeric equality: a float equal to `0` also matches the
tuple's `0`. -/
def inEmptyTuple (v : Value) : Bool :=
  match v with
  | .none => true
  | .str s => s = ""
  | .bytes b => b = []
  | .int i => i = 0
  | .float q => q.num = 0
  | .timestamp _ => false

/-- The payment-marker test applied to one cell value inside `normalize_row`:
not in `(None, "", b"", 0)`, then the three `continue` guards — a numeric zero
(redundant with the tuple test, kept for fidelity), a null timestamp
(`pd.isnull`), and a string that is empty after stripping. -/
def countedPayment (v : Value) : Bool :=
  if inEmptyTuple v then false
  else if (match v with | .int i => i == 0 | .float q => q.num == 0 | _ => false) then false
  else if (match v with | .timestamp isNull => isNull | _ => false) then false
  else if (match v with | .str s => pyStrip s == "" | _ => false) then false
  else true

/-- The `angsuran_terbayar` loop of `normalize_row`: tally the fields whose
upper-cased name opens with `ANG` and whose value passes `countedPayment`. -/
def countPayments (r : RawRecord) : Nat :=
  (r.filter (fun kv => strStartsWith (upperStr kv.1) "ANG" && countedPayment kv.2)).length

/-- First-binding lookup of a field in a raw record (`dict.get`). -/
def lookupV : RawRecord → String → Option Value
  | [], _ => Option.none
  | (k, v) :: t, key => if k = key then some v else lookupV t key

/-- One normalized loan record: the fields of the dict produced by
`normalize_row` (plus the `SRC_FILE`/`JENIS` stamps added in `load_data`) that
the pipeline reads downstream. -/
structure NormalizedRow where
  NOPEG : String
  NAMA : String
  BAGIAN : String
  JML : PyFloat
  LAMA : Int
  CICIL : PyFloat
  ANGSURAN_KE : Nat
  SISA_ANGSURAN : Int
  SISA_CICILAN : PyFloat
  TOTAL_TAGIHAN : PyFloat
  DIBAYAR : PyFloat
  STATUS : String
  SRC_FILE : String
  JENIS : String
deriving DecidableEq, Repr

/-- `normalize_row(row)` from `app.py`.  `SRC_FILE` and `JENIS` are left empty
here and stamped by `load_data`, as in the source. -/
def normalize_row (r : RawRecord) : NormalizedRow :=
  let ang := countPayments r
  let lama := _to_int_safe (orDefault (lookupV r "LAMA") (.int 0)) 0
  let cicil := _to_float_safe
    (orDefault (lookupV r "CICIL")
      (orDefault (lookupV r "BUNGA1")
        (orDefault (lookupV r "CICILAN") (.int 0)))) 0
  let sisaAng := max (lama - (ang : Int)) 0
  { NOPEG := pyStrip (pyStr (orDefault (lookupV r "NOPEG") (.str "")))
  , NAMA := pyStrip (pyStr (orDefault (lookupV r "NAMA") (.str "")))
  , BAGIAN := clean_division_name (pyStr (orDefault (lookupV r "BAGIAN") (.str "")))
  , JML := _to_float_safe
      (orDefault (lookupV r "JML")
        (orDefault (lookupV r "JML_DDL")
          (orDefault (lookupV r "JUMLAH") (.int 0)))) 0
  , LAMA := lama
  , CICIL := cicil
  , ANGSURAN_KE := ang
  , SISA_ANGSURAN := sisaAng
  , SISA_CICILAN := intToFloat sisaAng * cicil
  , TOTAL_TAGIHAN := intToFloat lama * cicil
  , DIBAYAR := intToFloat (ang : Int) * cicil
  , STATUS :=
      if ang = 0 ∧ lama > 0 then "Belum Bayar"
      else if sisaAng ≤ 0 ∧ lama > 0 then "Lunas"
      else "Berjalan"
  , SRC_FILE := ""
  , JENIS := "" }

/-! ### Aggregation engine (`load_data` in `app.py`) -/

/-- The rows read from one input file, together with the file's base name. -/
structure FileData where
  name : String
  rows : List RawRecord
deriving Repr

/-- Normalize every row of one file and stamp it with the source file's base
name and the loan type classified from that same name. -/
def processFile (f : FileData) : List NormalizedRow :=
  f.rows.map (fun rec =>
    { normalize_row rec with SRC_FILE := f.name, JENIS := classify_loan_type f.name })

/-- One `setdefault`-and-append step of the `all_loans_by_nopeg` grouping:
append to an existing group, otherwise open a new group at the end (dicts keep
first-seen key order). -/
def addToGroups (acc : List (String × List NormalizedRow)) (p : NormalizedRow) :
    List (String × List NormalizedRow) :=
  if acc.any (fun g => g.1 == p.NOPEG) then
    acc.map (fun g => if g.1 = p.NOPEG then (g.1, g.2 ++ [p]) else g)
  else acc ++ [(p.NOPEG, [p])]

/-- Group normalized records by employee id, preserving first-seen group order
and within-group insertion order. -/
def groupByNopeg (l : List NormalizedRow) : List (String × List NormalizedRow) :=
  l.foldl addToGroups []

/-- The per-employee sums and aggregate status (the `summary` dict). -/
structure SummaryTotals where
  JML : PyFloat
  LAMA : Int
  ANGSURAN_KE : Nat
  SISA_ANGSURAN : Int
  SISA_CICILAN : PyFloat
  DIBAYAR : PyFloat
  TOTAL_TAGIHAN : PyFloat
  STATUS : String
deriving DecidableEq, Repr

/-- One element of `final_data`: an employee summary. -/
structure EmployeeSummary where
  NOPEG : String
  NAMA : String
  BAGIAN : String
  SUMMARY : SummaryTotals
  DETAILS : List NormalizedRow
  COUNT_PINJAMAN : Nat
deriving DecidableEq, Repr

/-- The all-default normalized row, used only as the `getLastD` fallback for
`loans[-1]` (groups are never empty by construction). -/
def emptyRow : NormalizedRow :=
  { NOPEG := "", NAMA := "", BAGIAN := "", JML := 0, LAMA := 0, CICIL := 0
  , ANGSURAN_KE := 0, SISA_ANGSURAN := 0, SISA_CICILAN := 0, TOTAL_TAGIHAN := 0
  , DIBAYAR := 0, STATUS := "", SRC_FILE := "", JENIS := "" }

/-- Fold one employee group into its summary: field-wise sums, the
status-precedence rule (`Berjalan` dominates `Belum Bayar` dominates `Lunas`),
name and division from the group's last record. -/
def summarize (g : String × List NormalizedRow) : EmployeeSummary :=
  let loans := g.2
  { NOPEG := g.1
  , NAMA := (loans.getLastD emptyRow).NAMA
  , BAGIAN := (loans.getLastD emptyRow).BAGIAN
  , SUMMARY :=
    { JML := (loans.map (·.JML)).sum
    , LAMA := (loans.map (·.LAMA)).sum
    , ANGSURAN_KE := (loans.map (·.ANGSURAN_KE)).sum
    , SISA_ANGSURAN := (loans.map (·.SISA_ANGSURAN)).sum
    , SISA_CICILAN := (loans.map (·.SISA_CICILAN)).sum
    , DIBAYAR := (loans.map (·.DIBAYAR)).sum
    , TOTAL_TAGIHAN := (loans.map (·.TOTAL_TAGIHAN)).sum
    , STATUS :=
        if loans.any (fun l => l.STATUS == "Berjalan") then "Berjalan"
        else if loans.any (fun l => l.STATUS == "Belum Bayar") then "Belum Bayar"
        else "Lunas" }
  , DETAILS := loans
  , COUNT_PINJAMAN := loans.length }

/-- The pure core of `load_data`: normalize and stamp every row of every file,
drop records with an empty employee id, group by employee id, summarize each
group.  File discovery and the whole-run exception guard stay outside the
model; the per-file rows are this function's input. -/
def load_data (files : List FileData) : List EmployeeSummary :=
  (groupByNopeg (((files.map processFile).flatten).filter (fun p => p.NOPEG != ""))).map summarize

/-! ### Record source adapters (`read_dbf_file`, `read_excel_file`,
`CustomFieldParser.parseN`) -/

/-- `read_dbf_file`: the underlying `DBF(path, ...)` read is an external
effect, modelled by its outcome — either the list of records or a raised
error; the adapter's `try/except` turns any error into the empty list. -/
def read_dbf_file (outcome : Except String (List RawRecord)) : List RawRecord :=
  match outcome with
  | .ok recs => recs
  | .error _ => []

/-- `read_excel_file`: same shape as `read_dbf_file`, over
`pd.read_excel(path, dtype=str)`. -/
def read_excel_file (outcome : Except String (List RawRecord)) : List RawRecord :=
  match outcome with
  | .ok recs => recs
  | .error _ => []

/-- `load_data` composed with per-file read outcomes: each file contributes
the records of its successful read, or nothing on a read error. -/
def load_data_from_reads (files : List (String × Except String (List RawRecord))) :
    List EmployeeSummary :=
  load_data (files.map (fun f => { name := f.1, rows := read_dbf_file f.2 }))

/-- Bytes removed by `bytes.strip()` (ASCII whitespace). -/
def isWsByte (b : Nat) : Bool :=
  b = 32 ∨ b = 9 ∨ b = 10 ∨ b = 11 ∨ b = 12 ∨ b = 13

/-- `data.replace(b"\x00", b"").strip()` at the top of `parseN`. -/
def cleanBytes (bs : List Nat) : List Nat :=
  (((bs.filter (fun b => b ≠ 0)).dropWhile isWsByte).reverse.dropWhile isWsByte).reverse

/-- Python `int(bytes)`: optional sign, then a non-empty run of ASCII digits
(underscore separators are outside the model). -/
def parseIntBytes? (bs : List Nat) : Option Int :=
  let signed : Int × List Nat :=
    match bs with
    | 45 :: t => (-1, t)
    | 43 :: t => (1, t)
    | t => (1, t)
  if signed.2 ≠ [] ∧ signed.2.all (fun b => 48 ≤ b ∧ b ≤ 57) then
    some (signed.1 * (signed.2.foldl (fun a b => a * 10 + (b - 48)) 0 : Nat))
  else Option.none

/-- `CustomFieldParser.parseN` from `custom_parser.py`: drop null bytes and
trim; empty becomes `None`; try an integer; otherwise decode latin1, turn the
decimal comma into a dot and try a float; on failure fall back to `0`. -/
def parseN (data : List Nat) : Value :=
  let d := cleanBytes data
  if d = [] then Value.none
  else
    match parseIntBytes? d with
    | some i => Value.int i
    | Option.none =>
      match parseFloat? ⟨(d.map Char.ofNat).map (fun c => if c = ',' then '.' else c)⟩ with
      | some q => Value.float q
      | Option.none => Value.int 0

/-! ### Helper lemmas -/

theorem normalize_row_ANGSURAN_KE (r : RawRecord) :
    (normalize_row r).ANGSURAN_KE = countPayments r := rfl

theorem normalize_row_JML (r : RawRecord) :
    (normalize_row r).JML =
      _to_float_safe
        (orDefault (lookupV r "JML")
          (orDefault (lookupV r "JML_DDL")
            (orDefault (lookupV r "JUMLAH") (.int 0)))) 0 := rfl

theorem normalize_row_LAMA (r : RawRecord) :
    (normalize_row r).LAMA = _to_int_safe (orDefault (lookupV r "LAMA") (.int 0)) 0 := rfl

theorem normalize_row_CICIL (r : RawRecord) :
    (normalize_row r).CICIL =
      _to_float_safe
        (orDefault (lookupV r "CICIL")
          (orDefault (lookupV r "BUNGA1")
            (orDefault (lookupV r "CICILAN") (.int 0)))) 0 := rfl

/-! ### C4 — loan-type classifier -/

/-- C4: for every filename the Loan-Type Classifier returns exactly one label
out of the fixed eleven-label set (it never fails), and rule order is
respected: a (normalized) filename containing both a trade/dagang token and an
electronics token classifies as "Hutkop Dagang", rule 1 preceding rule 2. -/
theorem c4_classifier_total_and_ordered :
    (∀ fn : String, classify_loan_type fn ∈ loanTypeLabels) ∧
    (∀ fn : String, is_dagang (normalize_filename fn) = true →
      is_elek (normalize_filename fn) = true →
      classify_loan_type fn = "Hutkop Dagang") := by
  constructor
  · intro fn
    unfold classify_loan_type classify_core loanTypeLabels
    repeat' split
    all_goals simp
  · intro fn hd _
    unfold classify_loan_type classify_core
    rw [if_pos hd]

/-- Witness for C4 at a concrete filename holding both token kinds. -/
theorem c4_classifier_total_and_ordered_witness :
    classify_loan_type "hutkop dagang elektronik.dbf" = "Hutkop Dagang" :=
  c4_classifier_total_and_ordered.2 "hutkop dagang elektronik.dbf" (by decide) (by decide)

/-! ### C8 — division-name canonicalizer -/

/-- C8: the Division Name Canonicalizer is total (empty input yields the empty
string); every input whose trimmed, lower-cased form opens with "penj" maps to
"Marketing" whatever the alias table holds; and inputs absent from the table
fall back to the title-cased trimmed (lower-cased) text. -/
theorem c8_division_canonicalizer :
    clean_division_name "" = "" ∧
    (∀ (table : List (String × String)) (name : String),
      strStartsWith (lowerStr (pyStrip name)) "penj" = true →
      clean_division_name_with table name = "Marketing") ∧
    (∀ name : String,
      strStartsWith (lowerStr (pyStrip name)) "penj" = false →
      lookupStr division_map (lowerStr (pyStrip name)) = Option.none →
      clean_division_name name = titleStr (lowerStr (pyStrip name))) := by
  refine ⟨by decide, ?_, ?_⟩
  · intro table name h
    unfold clean_division_name_with
    rw [if_pos h]
  · intro name h1 h2
    unfold clean_division_name clean_division_name_with
    rw [if_neg (by simp [h1]), h2]

/-- Witness for C8: a sales-labelled division maps to Marketing even with an
empty alias table, and an unknown label falls back to title case. -/
theorem c8_division_canonicalizer_witness :
    clean_division_name_with [] " PENJUALAN " = "Marketing" ∧
    clean_division_name "gudang baru" = "Gudang Baru" :=
  ⟨c8_division_canonicalizer.2.1 [] " PENJUALAN " (by decide),
   (c8_division_canonicalizer.2.2 "gudang baru" (by decide) (by decide)).trans (by decide)⟩

/-! ### C3 — per-loan status rule -/

/-- C3: the per-loan status follows the if/elif/else of `normalize_row`
(the not-yet-paying label when no payment was counted and the term is
positive; the paid-off label when nothing remains and the term is positive;
in-progress otherwise), and consequently every record with a zero term count
is "Berjalan" whatever `payments_made` is.  The code spells the not-yet-paying
label "Belum Bayar". -/
theorem c3_status_rule (r : RawRecord) :
    (normalize_row r).STATUS =
      (if (normalize_row r).ANGSURAN_KE = 0 ∧ (normalize_row r).LAMA > 0 then "Belum Bayar"
       else if (normalize_row r).SISA_ANGSURAN ≤ 0 ∧ (normalize_row r).LAMA > 0 then "Lunas"
       else "Berjalan") ∧
    ((normalize_row r).LAMA = 0 → (normalize_row r).STATUS = "Berjalan") := by
  have e : (normalize_row r).STATUS =
      (if (normalize_row r).ANGSURAN_KE = 0 ∧ (normalize_row r).LAMA > 0 then "Belum Bayar"
       else if (normalize_row r).SISA_ANGSURAN ≤ 0 ∧ (normalize_row r).LAMA > 0 then "Lunas"
       else "Berjalan") := rfl
  refine ⟨e, fun h => ?_⟩
  rw [e, h]
  norm_num

/-- Witness for C3: a record with five filled payment markers but no term
count normalizes to status "Berjalan". -/
theorem c3_status_rule_witness :
    (normalize_row [("NOPEG", Value.str "X"), ("ANG1", Value.int 5)]).STATUS = "Berjalan" :=
  (c3_status_rule [("NOPEG", Value.str "X"), ("ANG1", Value.int 5)]).2 (by decide)

/-! ### C1 — numeric field fallback chains -/

/-- The record refuting claim C1 as stated: the first-named principal field
`JML` is present (holding the number `0`) yet the value of the later-named
`JML_DDL` is the one converted. -/
def c1row : RawRecord := [("JML", Value.int 0), ("JML_DDL", Value.int 7)]

/-- Counterexample to C1 as stated: on `c1row` the field `JML` is present with
value `0`, whose conversion is `0.0`, but `normalize_row` stores `7.0` — the
later-named field's value, because Python's `or` chain skips falsy values, not
merely absent ones. -/
theorem c1_first_named_counterexample :
    lookupV c1row "JML" = some (Value.int 0) ∧
    _to_float_safe (Value.int 0) 0 = intToFloat 0 ∧
    (normalize_row c1row).JML = intToFloat 7 ∧
    (normalize_row c1row).JML ≠ _to_float_safe (Value.int 0) 0 := by decide

/-- The field named `k` is either absent from `r` or holds a falsy value
(`None`, empty text, empty bytes or numeric zero). -/
def falsyField (r : RawRecord) (k : String) : Bool :=
  match lookupV r k with
  | some v => !truthy v
  | Option.none => true

/-- C1 (amended): principal is converted from the first of `JML`, `JML_DDL`,
`JUMLAH` holding a truthy value — in particular, when the first-named field
holds a truthy value, that value is the one converted, regardless of the
later-named fields — falling back to `0.0` when all three are absent or
falsy; the term count always equals the safe integer conversion of the `LAMA`
field (absent treated as `None`); the installment amount behaves like the
principal over `CICIL`, `BUNGA1`, `CICILAN`. -/
theorem c1_first_truthy_wins (r : RawRecord) :
    (∀ v, lookupV r "JML" = some v → truthy v = true →
      (normalize_row r).JML = _to_float_safe v 0) ∧
    (falsyField r "JML" = true → ∀ v, lookupV r "JML_DDL" = some v → truthy v = true →
      (normalize_row r).JML = _to_float_safe v 0) ∧
    (falsyField r "JML" = true → falsyField r "JML_DDL" = true →
      ∀ v, lookupV r "JUMLAH" = some v → truthy v = true →
      (normalize_row r).JML = _to_float_safe v 0) ∧
    (falsyField r "JML" = true → falsyField r "JML_DDL" = true → falsyField r "JUMLAH" = true →
      (normalize_row r).JML = 0) ∧
    ((normalize_row r).LAMA = _to_int_safe ((lookupV r "LAMA").getD Value.none) 0) ∧
    (∀ v, lookupV r "CICIL" = some v → truthy v = true →
      (normalize_row r).CICIL = _to_float_safe v 0) ∧
    (falsyField r "CICIL" = true → ∀ v, lookupV r "BUNGA1" = some v → truthy v = true →
      (normalize_row r).CICIL = _to_float_safe v 0) ∧
    (falsyField r "CICIL" = true → falsyField r "BUNGA1" = true →
      ∀ v, lookupV r "CICILAN" = some v → truthy v = true →
      (normalize_row r).CICIL = _to_float_safe v 0) ∧
    (falsyField r "CICIL" = true → falsyField r "BUNGA1" = true → falsyField r "CICILAN" = true →
      (normalize_row r).CICIL = 0) := by
  have hfalsy0 : ∀ v, truthy v = false → _to_int_safe v 0 = 0 := by
    intro v hv
    cases v with
    | none => rfl
    | str s =>
      have : s = "" := by simpa [truthy] using hv
      subst this; decide
    | bytes b => rfl
    | int i =>
      have : i = 0 := by simpa [truthy] using hv
      simp [this, _to_int_safe]
    | float q =>
      have : q.num = 0 := by simpa [truthy] using hv
      simp [_to_int_safe, truncFloat, this]
    | timestamp b => simp [truthy] at hv
  refine ⟨?_, ?_, ?_, ?_, ?_, ?_, ?_, ?_, ?_⟩
  · intro v hv ht
    rw [normalize_row_JML, hv]
    simp [orDefault, ht]
  · intro h1 v hv ht
    rw [normalize_row_JML, hv]
    unfold falsyField at h1
    cases hl : lookupV r "JML" <;> rw [hl] at h1 <;>
      simp_all [orDefault]
  · intro h1 h2 v hv ht
    rw [normalize_row_JML, hv]
    unfold falsyField at h1 h2
    cases hl1 : lookupV r "JML" <;> rw [hl1] at h1 <;>
      cases hl2 : lookupV r "JML_DDL" <;> rw [hl2] at h2 <;>
        simp_all [orDefault]
  · intro h1 h2 h3
    rw [normalize_row_JML]
    unfold falsyField at h1 h2 h3
    cases hl1 : lookupV r "JML" <;> rw [hl1] at h1 <;>
      cases hl2 : lookupV r "JML_DDL" <;> rw [hl2] at h2 <;>
        cases hl3 : lookupV r "JUMLAH" <;> rw [hl3] at h3 <;>
          simp_all [orDefault, _to_float_safe, intToFloat]
    all_goals rfl
  · rw [normalize_row_LAMA]
    cases hl : lookupV r "LAMA" with
    | none => rfl
    | some v =>
      by_cases ht : truthy v = true
      · simp [orDefault, ht]
      · have ht' : truthy v = false := by simpa using ht
        have h0 := hfalsy0 v ht'
        simp only [orDefault, Option.getD, ht', Bool.false_eq_true, if_false, h0]
        rfl
  · intro v hv ht
    rw [normalize_row_CICIL, hv]
    simp [orDefault, ht]
  · intro h1 v hv ht
    rw [normalize_row_CICIL, hv]
    unfold falsyField at h1
    cases hl : lookupV r "CICIL" <;> rw [hl] at h1 <;>
      simp_all [orDefault]
  · intro h1 h2 v hv ht
    rw [normalize_row_CICIL, hv]
    unfold falsyField at h1 h2
    cases hl1 : lookupV r "CICIL" <;> rw [hl1] at h1 <;>
      cases hl2 : lookupV r "BUNGA1" <;> rw [hl2] at h2 <;>
        simp_all [orDefault]
  · intro h1 h2 h3
    rw [normalize_row_CICIL]
    unfold falsyField at h1 h2 h3
    cases hl1 : lookupV r "CICIL" <;> rw [hl1] at h1 <;>
      cases hl2 : lookupV r "BUNGA1" <;> rw [hl2] at h2 <;>
        cases hl3 : lookupV r "CICILAN" <;> rw [hl3] at h3 <;>
          simp_all [orDefault, _to_float_safe, intToFloat]
    all_goals rfl

/-- A record whose first-named principal field is truthy. -/
def c1wrowA : RawRecord := [("JML", Value.int 5), ("JML_DDL", Value.int 9)]

/-- A record whose first-named principal field is falsy but present. -/
def c1wrowB : RawRecord :=
  [("JML", Value.str ""), ("JML_DDL", Value.int 7), ("LAMA", Value.str "4")]

/-- Witness for the amended C1 at two concrete records. -/
theorem c1_first_truthy_wins_witness :
    (normalize_row c1wrowA).JML = _to_float_safe (Value.int 5) 0 ∧
    (normalize_row c1wrowB).JML = _to_float_safe (Value.int 7) 0 ∧
    (normalize_row c1wrowB).LAMA = 4 :=
  ⟨(c1_first_truthy_wins c1wrowA).1 (Value.int 5) (by decide) (by decide),
   (c1_first_truthy_wins c1wrowB).2.1 (by decide) (Value.int 7) (by decide) (by decide),
   ((c1_first_truthy_wins c1wrowB).2.2.2.2.1).trans (by decide)⟩

/-! ### C2 — payment-marker counting -/

/-- The payment count exactly as claim C2 words it (written from the claim,
for comparison with the code): tally the fields whose upper-cased name opens
with `ANG` and whose value is not absent (`None`), empty text, empty bytes, or
numeric zero. -/
def paymentCountPerClaim (r : RawRecord) : Nat :=
  (r.filter (fun kv => strStartsWith (upperStr kv.1) "ANG" && !(inEmptyTuple kv.2))).length

/-- The record refuting claim C2 as stated: one payment-marker field holding a
single space. -/
def c2row : RawRecord := [("ANG1", Value.str " ")]

/-- Counterexample to C2 as stated: a marker holding the whitespace-only text
" " is outside the claim's exclusion set {absent, empty text, empty bytes,
numeric zero}, so the claim counts it as one payment, yet `normalize_row`
counts zero (its loop also skips strings that are empty after stripping). -/
theorem c2_count_counterexample :
    paymentCountPerClaim c2row = 1 ∧ (normalize_row c2row).ANGSURAN_KE = 0 := by decide

/-- The amended non-empty test for a payment-marker value: not absent/`None`,
empty text, empty bytes, numeric zero, whitespace-only text, or a null
timestamp marker.  (Written from the amended claim, for comparison with the
code's loop.) -/
def countsAsPaidAmended (v : Value) : Bool :=
  !(inEmptyTuple v) &&
    !(match v with | .str s => pyStrip s == "" | _ => false) &&
    !(match v with | .timestamp isNull => isNull | _ => false)

theorem countedPayment_eq_amended (v : Value) :
    countedPayment v = countsAsPaidAmended v := by
  cases v with
  | str s =>
    by_cases h1 : s = "" <;> by_cases h2 : pyStrip s = "" <;>
      simp_all [countedPayment, countsAsPaidAmended, inEmptyTuple]
  | int i =>
    by_cases h : i = 0 <;> simp [countedPayment, countsAsPaidAmended, inEmptyTuple, h]
  | float q =>
    by_cases h : q.num = 0 <;> simp [countedPayment, countsAsPaidAmended, inEmptyTuple, h]
  | bytes b =>
    by_cases h : b = [] <;> simp [countedPayment, countsAsPaidAmended, inEmptyTuple, h]
  | none => rfl
  | timestamp isNull => cases isNull <;> rfl

/-- C2 (amended): `payments_made` is the tally — one per field, never a sum of
values — of the fields whose upper-cased name opens with "ANG" and whose value
is not absent, empty text, empty bytes, numeric zero, whitespace-only text, or
a null timestamp marker. -/
theorem c2_payment_count_amended (r : RawRecord) :
    (normalize_row r).ANGSURAN_KE =
      (r.filter (fun kv => strStartsWith (upperStr kv.1) "ANG" && countsAsPaidAmended kv.2)).length := by
  rw [normalize_row_ANGSURAN_KE]
  unfold countPayments
  congr 1
  apply List.filter_congr
  intro kv _
  rw [countedPayment_eq_amended]

/-! ### C10 — payment-marker value edge cases -/

/-- How one extra leading field changes the payment tally. -/
theorem countPayments_cons (k : String) (v : Value) (r : RawRecord) :
    countPayments ((k, v) :: r) =
      (if strStartsWith (upperStr k) "ANG" && countedPayment v then 1 else 0) + countPayments r := by
  unfold countPayments
  rw [List.filter_cons]
  split <;> simp_all [Nat.add_comm]

/-- C10: a payment-marker field holding the text "0" or the bytes b"0" counts
as one payment made (only `None`, empty text/bytes and numeric zero are
excluded), while numeric `0` or `0.0` and whitespace-only text contribute
nothing to `payments_made`. -/
theorem c10_marker_value_edge_cases (r : RawRecord) (k : String)
    (hk : strStartsWith (upperStr k) "ANG" = true) :
    (normalize_row ((k, Value.str "0") :: r)).ANGSURAN_KE
        = (normalize_row r).ANGSURAN_KE + 1 ∧
    (normalize_row ((k, Value.bytes [48]) :: r)).ANGSURAN_KE
        = (normalize_row r).ANGSURAN_KE + 1 ∧
    (normalize_row ((k, Value.int 0) :: r)).ANGSURAN_KE
        = (normalize_row r).ANGSURAN_KE ∧
    (normalize_row ((k, Value.float 0) :: r)).ANGSURAN_KE
        = (normalize_row r).ANGSURAN_KE ∧
    (∀ s : String, pyStrip s = "" →
      (normalize_row ((k, Value.str s) :: r)).ANGSURAN_KE
        = (normalize_row r).ANGSURAN_KE) := by
  refine ⟨?_, ?_, ?_, ?_, ?_⟩
  · rw [normalize_row_ANGSURAN_KE, normalize_row_ANGSURAN_KE, countPayments_cons, hk,
      show countedPayment (Value.str "0") = true from by decide]
    simp [Nat.add_comm]
  · rw [normalize_row_ANGSURAN_KE, normalize_row_ANGSURAN_KE, countPayments_cons, hk,
      show countedPayment (Value.bytes [48]) = true from by decide]
    simp [Nat.add_comm]
  · rw [normalize_row_ANGSURAN_KE, normalize_row_ANGSURAN_KE, countPayments_cons, hk,
      show countedPayment (Value.int 0) = false from by decide]
    simp
  · rw [normalize_row_ANGSURAN_KE, normalize_row_ANGSURAN_KE, countPayments_cons, hk,
      show countedPayment (Value.float 0) = false from by decide]
    simp
  · intro s hs
    have hc : countedPayment (Value.str s) = false := by
      by_cases h : s = "" <;> simp [countedPayment, inEmptyTuple, h, hs]
    rw [normalize_row_ANGSURAN_KE, normalize_row_ANGSURAN_KE, countPayments_cons, hk, hc]
    simp

/-- Witness for C10 at the marker name "ANG1" over the empty record. -/
theorem c10_marker_value_edge_cases_witness :
    (normalize_row [("ANG1", Value.str "0")]).ANGSURAN_KE = (normalize_row []).ANGSURAN_KE + 1 ∧
    (normalize_row [("ANG1", Value.bytes [48])]).ANGSURAN_KE = (normalize_row []).ANGSURAN_KE + 1 ∧
    (normalize_row [("ANG1", Value.int 0)]).ANGSURAN_KE = (normalize_row []).ANGSURAN_KE ∧
    (normalize_row [("ANG1", Value.float 0)]).ANGSURAN_KE = (normalize_row []).ANGSURAN_KE ∧
    (normalize_row [("ANG1", Value.str " ")]).ANGSURAN_KE = (normalize_row []).ANGSURAN_KE :=
  have h := c10_marker_value_edge_cases [] "ANG1" (by decide)
  ⟨h.1, h.2.1, h.2.2.1, h.2.2.2.1, h.2.2.2.2 " " (by decide)⟩

/-! ### Grouping invariants for the aggregation engine -/

/-- The invariant the `all_loans_by_nopeg` dict keeps: every group has a
non-empty key, is non-empty, and each member's employee id matches the key. -/
def GroupsInv (acc : List (String × List NormalizedRow)) : Prop :=
  ∀ g ∈ acc, g.1 ≠ "" ∧ g.2 ≠ [] ∧ ∀ x ∈ g.2, x.NOPEG = g.1

theorem addToGroups_inv {acc : List (String × List NormalizedRow)} {p : NormalizedRow}
    (hacc : GroupsInv acc) (hp : p.NOPEG ≠ "") : GroupsInv (addToGroups acc p) := by
  intro g hg
  unfold addToGroups at hg
  split at hg
  · obtain ⟨g₀, hg₀, rfl⟩ := List.mem_map.mp hg
    by_cases h : g₀.1 = p.NOPEG
    · rw [if_pos h]
      refine ⟨(hacc g₀ hg₀).1, by simp, ?_⟩
      intro x hx
      rcases List.mem_append.mp hx with hx | hx
      · exact (hacc g₀ hg₀).2.2 x hx
      · simp at hx
        rw [hx, h]
    · rw [if_neg h]
      exact hacc g₀ hg₀
  · rcases List.mem_append.mp hg with h | h
    · exact hacc g h
    · simp at h
      rw [h]
      exact ⟨hp, by simp, by simp⟩

theorem foldl_addToGroups_inv {l : List NormalizedRow}
    {acc : List (String × List NormalizedRow)}
    (hacc : GroupsInv acc) (hl : ∀ x ∈ l, x.NOPEG ≠ "") :
    GroupsInv (l.foldl addToGroups acc) := by
  induction l generalizing acc with
  | nil => exact hacc
  | cons x t ih =>
    exact ih (addToGroups_inv hacc (hl x (by simp))) (fun y hy => hl y (by simp [hy]))

theorem groupByNopeg_inv {l : List NormalizedRow} (hl : ∀ x ∈ l, x.NOPEG ≠ "") :
    GroupsInv (groupByNopeg l) :=
  foldl_addToGroups_inv (by intro g hg; simp at hg) hl

/-- Every record surviving the empty-id filter of `load_data` has a non-empty
employee id. -/
theorem filtered_nopeg (files : List FileData) :
    ∀ x ∈ ((files.map processFile).flatten.filter (fun p => p.NOPEG != "")),
      x.NOPEG ≠ "" := by
  intro x hx
  have h := (List.mem_filter.mp hx).2
  simpa using h

/-- Destructing membership in `load_data`: every summary is `summarize` of a
group of the grouped, filtered record list. -/
theorem load_data_mem {files : List FileData} {s : EmployeeSummary}
    (hs : s ∈ load_data files) :
    ∃ g ∈ groupByNopeg ((files.map processFile).flatten.filter (fun p => p.NOPEG != "")),
      s = summarize g := by
  obtain ⟨g, hg, hfs⟩ := List.mem_map.mp hs
  exact ⟨g, hg, hfs.symm⟩

/-! ### C7 — empty employee ids are discarded -/

/-- C7: no summary produced by the aggregation is keyed by the empty employee
id, and every record held in any summary's loans list has a non-empty
employee id. -/
theorem c7_no_empty_employee_id (files : List FileData) (s : EmployeeSummary)
    (hs : s ∈ load_data files) :
    s.NOPEG ≠ "" ∧ ∀ l ∈ s.DETAILS, l.NOPEG ≠ "" := by
  obtain ⟨g, hg, rfl⟩ := load_data_mem hs
  have hinv := groupByNopeg_inv (filtered_nopeg files) g hg
  refine ⟨hinv.1, fun l hl => ?_⟩
  have : l.NOPEG = g.1 := hinv.2.2 l hl
  rw [this]
  exact hinv.1

/-- Input with one unassignable record (empty id) and one normal record. -/
def c7files : List FileData :=
  [⟨"y.dbf", [[("NOPEG", Value.str "  ")], [("NOPEG", Value.str "E9")]]⟩]

/-- The single summary the aggregation produces for `c7files`. -/
def c7sum : EmployeeSummary := (load_data c7files).headD (summarize ("", []))

/-- Witness for C7: the whitespace-only-id record is dropped and the one
produced summary has a non-empty id holding only non-empty-id loans. -/
theorem c7_no_empty_employee_id_witness :
    (c7sum.NOPEG ≠ "" ∧ ∀ l ∈ c7sum.DETAILS, l.NOPEG ≠ "") ∧
    (load_data c7files).length = 1 :=
  ⟨c7_no_empty_employee_id c7files c7sum (by decide), by decide⟩

/-! ### C6 — name and division from the last record of the group -/

/-- C6: every employee summary takes its displayed name and division from the
last record of that employee's group in insertion (file-then-row discovery)
order. -/
theorem c6_last_record_wins (files : List FileData) (s : EmployeeSummary)
    (hs : s ∈ load_data files) :
    s.DETAILS ≠ [] ∧
    s.NAMA = (s.DETAILS.getLastD emptyRow).NAMA ∧
    s.BAGIAN = (s.DETAILS.getLastD emptyRow).BAGIAN := by
  obtain ⟨g, hg, rfl⟩ := load_data_mem hs
  exact ⟨(groupByNopeg_inv (filtered_nopeg files) g hg).2.1, rfl, rfl⟩

/-- Two rows for the same employee with different names and divisions. -/
def c6files : List FileData :=
  [⟨"z.dbf",
    [[("NOPEG", Value.str "E1"), ("NAMA", Value.str "Agus"), ("BAGIAN", Value.str "teknik")],
     [("NOPEG", Value.str "E1"), ("NAMA", Value.str "Budi"), ("BAGIAN", Value.str "prod")]]⟩]

/-- The single summary the aggregation produces for `c6files`. -/
def c6sum : EmployeeSummary := (load_data c6files).headD (summarize ("", []))

/-- Witness for C6: the summary's name/division are those of the second (last)
record — "Budi"/"Produksi" — not the first record's "Agus"/"Teknik". -/
theorem c6_last_record_wins_witness :
    c6sum.NAMA = (c6sum.DETAILS.getLastD emptyRow).NAMA ∧
    c6sum.NAMA = "Budi" ∧ c6sum.BAGIAN = "Produksi" ∧
    (c6sum.DETAILS.headD emptyRow).NAMA = "Agus" :=
  ⟨(c6_last_record_wins c6files c6sum (by decide)).2.1, by decide, by decide, by decide⟩

/-! ### C5 — aggregate totals and aggregate status -/

/-- C5: for every employee summary, the aggregate remaining amount is the sum
of the members' remaining amounts, and the aggregate status is "Berjalan"
whenever at least one member is "Berjalan" (irrespective of the others), else
"Belum Bayar" whenever at least one member is "Belum Bayar", else "Lunas". -/
theorem c5_aggregate_totals_and_status (files : List FileData) (s : EmployeeSummary)
    (hs : s ∈ load_data files) :
    s.SUMMARY.SISA_CICILAN = (s.DETAILS.map (fun l => l.SISA_CICILAN)).sum ∧
    ((∃ l ∈ s.DETAILS, l.STATUS = "Berjalan") → s.SUMMARY.STATUS = "Berjalan") ∧
    ((¬ ∃ l ∈ s.DETAILS, l.STATUS = "Berjalan") →
      (∃ l ∈ s.DETAILS, l.STATUS = "Belum Bayar") → s.SUMMARY.STATUS = "Belum Bayar") ∧
    ((¬ ∃ l ∈ s.DETAILS, l.STATUS = "Berjalan") →
      (¬ ∃ l ∈ s.DETAILS, l.STATUS = "Belum Bayar") → s.SUMMARY.STATUS = "Lunas") := by
  obtain ⟨g, _, rfl⟩ := load_data_mem hs
  have eb : (g.2.any (fun l => l.STATUS == "Berjalan") = true) ↔
      ∃ l ∈ g.2, l.STATUS = "Berjalan" := by
    simp [List.any_eq_true]
  have ebb : (g.2.any (fun l => l.STATUS == "Belum Bayar") = true) ↔
      ∃ l ∈ g.2, l.STATUS = "Belum Bayar" := by
    simp [List.any_eq_true]
  have e : (summarize g).SUMMARY.STATUS =
      (if g.2.any (fun l => l.STATUS == "Berjalan") then "Berjalan"
       else if g.2.any (fun l => l.STATUS == "Belum Bayar") then "Belum Bayar"
       else "Lunas") := rfl
  refine ⟨rfl, ?_, ?_, ?_⟩
  · intro h
    rw [e, if_pos (eb.mpr h)]
  · intro h1 h2
    rw [e, if_neg (by simpa [eb] using h1), if_pos (ebb.mpr h2)]
  · intro h1 h2
    rw [e, if_neg (by simpa [eb] using h1), if_neg (by simpa [ebb] using h2)]

/-- The spec's example scenario: two loans for employee E1, one in progress
(7 of 10 installments of 100000 remaining) and one fully paid. -/
def c5files : List FileData :=
  [⟨"x.dbf",
    [[("NOPEG", Value.str "E1"), ("LAMA", Value.int 10), ("CICIL", Value.int 100000),
      ("ANG1", Value.int 1), ("ANG2", Value.int 1), ("ANG3", Value.int 1)],
     [("NOPEG", Value.str "E1"), ("LAMA", Value.int 5), ("CICIL", Value.int 50000),
      ("ANG1", Value.int 1), ("ANG2", Value.int 1), ("ANG3", Value.int 1),
      ("ANG4", Value.int 1), ("ANG5", Value.int 1)]]⟩]

/-- The single summary the aggregation produces for `c5files`. -/
def c5sum : EmployeeSummary := (load_data c5files).headD (summarize ("", []))

/-- Witness for C5 on the spec's example: the aggregate remaining amount is
the member sum (700000) and one "Berjalan" member forces aggregate status
"Berjalan" despite the "Lunas" member. -/
theorem c5_aggregate_totals_and_status_witness :
    c5sum.SUMMARY.SISA_CICILAN = (c5sum.DETAILS.map (fun l => l.SISA_CICILAN)).sum ∧
    c5sum.SUMMARY.SISA_CICILAN.num = 700000 ∧
    c5sum.SUMMARY.STATUS = "Berjalan" ∧
    (∃ l ∈ c5sum.DETAILS, l.STATUS = "Lunas") :=
  ⟨(c5_aggregate_totals_and_status c5files c5sum (by decide)).1, by decide,
   (c5_aggregate_totals_and_status c5files c5sum (by decide)).2.1 (by decide), by decide⟩

/-! ### C9 — adapter error containment and numeric-cell degradation -/

/-- C9: no failure inside a record source adapter escapes — a failed file
read yields the empty record list in both adapter variants, so a corrupt
file contributes zero records and the aggregate over all files is exactly
what it would be had that file been empty; and inside the binary-table
parser a malformed numeric cell degrades to `0` while an empty cell becomes
the null marker. -/
theorem c9_adapter_error_containment :
    (∀ e, read_dbf_file (.error e) = []) ∧
    (∀ recs, read_dbf_file (.ok recs) = recs) ∧
    (∀ e, read_excel_file (.error e) = []) ∧
    (∀ (pre post : List (String × Except String (List RawRecord))) (n e : String),
      load_data_from_reads (pre ++ (n, .error e) :: post) =
        load_data_from_reads (pre ++ (n, .ok []) :: post)) ∧
    (∀ bs : List Nat, cleanBytes bs ≠ [] →
      parseIntBytes? (cleanBytes bs) = Option.none →
      parseFloat? ⟨((cleanBytes bs).map Char.ofNat).map (fun c => if c = ',' then '.' else c)⟩
        = Option.none →
      parseN bs = Value.int 0) ∧
    (∀ bs : List Nat, cleanBytes bs = [] → parseN bs = Value.none) := by
  refine ⟨fun _ => rfl, fun _ => rfl, fun _ => rfl, ?_, ?_, ?_⟩
  · intro pre post n e
    unfold load_data_from_reads
    rw [List.map_append, List.map_append, List.map_cons, List.map_cons]
    rfl
  · intro bs h1 h2 h3
    unfold parseN
    rw [if_neg h1, h2, h3]
  · intro bs h1
    unfold parseN
    rw [if_pos h1]

/-- A well-formed record used beside the corrupt file in the C9 witness. -/
def c9okrow : RawRecord := [("NOPEG", Value.str "E5"), ("LAMA", Value.int 3)]

/-- Witness for C9: a corrupt file beside a valid one yields the same
aggregate as an empty file would, and `parseN` degrades `b"abc"` to `0` and
`b" \x00"` to the null marker. -/
theorem c9_adapter_error_containment_witness :
    read_dbf_file (.error "boom") = [] ∧
    read_excel_file (.error "boom") = [] ∧
    load_data_from_reads [("a.dbf", .ok [c9okrow]), ("b.dbf", .error "corrupt")] =
      load_data_from_reads [("a.dbf", .ok [c9okrow]), ("b.dbf", .ok [])] ∧
    parseN [97, 98, 99] = Value.int 0 ∧
    parseN [32, 0] = Value.none :=
  ⟨c9_adapter_error_containment.1 "boom",
   c9_adapter_error_containment.2.2.1 "boom",
   c9_adapter_error_containment.2.2.2.1 [("a.dbf", .ok [c9okrow])] [] "b.dbf" "corrupt",
   c9_adapter_error_containment.2.2.2.2.1 [97, 98, 99] (by decide) (by decide) (by decide),
   c9_adapter_error_containment.2.2.2.2.2 [32, 0] (by decide)⟩
